import Mathlib

/-!
Verification development for the backend bootstrap of the `nexuswork`
repository (`src/src-tauri/src/lib.rs`): a versioned schema-migration
engine over an embedded relational store, and a process supervisor for
an API sidecar.

The five build-time migrations are transcribed from the `migrations`
vector in `run` (the SQL text is embedded as an abstract-syntax tree of
the DDL statements it contains).  The migration engine, the SQLite
statement semantics, the spawn operation and the cascade-delete
enforcement live in external crates (`tauri_plugin_sql`,
`tauri_plugin_shell`, SQLite itself) whose sources are not part of the
repository; those are modelled from the specification, as marked on
each definition.  The event-draining loop and the sidecar environment
contract are transcribed directly from `run`.
-/

/-! ## SQL data definition language, as used by the migration scripts -/

/-- The column types appearing in the migration SQL: `TEXT`, `INTEGER`, `REAL`. -/
inductive SqlType where
  | text
  | integer
  | real
deriving DecidableEq, Repr

/-- A `DEFAULT` clause value: a string literal, an integer literal, or the
`(datetime('now'))` expression used for timestamp columns. -/
inductive DefaultVal where
  | str (s : String)
  | intVal (n : Int)
  | datetimeNow
deriving DecidableEq, Repr

/-- One column declaration of a `CREATE TABLE` or `ALTER TABLE ... ADD COLUMN`. -/
structure Column where
  name : String
  ty : SqlType
  notNull : Bool
  primaryKey : Bool
  autoincrement : Bool
  dflt : Option DefaultVal
deriving DecidableEq, Repr

/-- A table-level `FOREIGN KEY (column) REFERENCES refTable(refColumn)`
declaration, with its `ON DELETE CASCADE` flag. -/
structure ForeignKey where
  column : String
  refTable : String
  refColumn : String
  onDeleteCascade : Bool
deriving DecidableEq, Repr

/-- The DDL statements occurring in the migration scripts. -/
inductive Stmt where
  | createTable (ifNotExists : Bool) (name : String)
      (columns : List Column) (fks : List ForeignKey)
  | createIndex (ifNotExists : Bool) (name : String)
      (table : String) (column : String)
  | alterAddColumn (table : String) (col : Column)
deriving DecidableEq, Repr

/-- Shorthand for a plain nullable column with no constraints. -/
def plainCol (n : String) (t : SqlType) : Column :=
  ⟨n, t, false, false, false, none⟩

/-- Shorthand for a `NOT NULL` column. -/
def nnCol (n : String) (t : SqlType) : Column :=
  ⟨n, t, true, false, false, none⟩

/-- Shorthand for a `NOT NULL DEFAULT (datetime('now'))` timestamp column. -/
def tsCol (n : String) : Column :=
  ⟨n, .text, true, false, false, some .datetimeNow⟩

/-! ## The build-time migration list, transcribed from `lib.rs` -/

/-- Mirrors `tauri_plugin_sql::MigrationKind`. -/
inductive MigrationKind where
  | up
  | down
deriving DecidableEq, Repr

/-- Mirrors `tauri_plugin_sql::Migration`: a version, a human description,
the SQL script (as the list of statements it parses to) and a kind. -/
structure Migration where
  version : Nat
  description : String
  sql : List Stmt
  kind : MigrationKind
deriving DecidableEq, Repr

/-- Version 1: `create_tasks_and_messages_tables`. -/
def migration1 : Migration where
  version := 1
  description := "create_tasks_and_messages_tables"
  sql :=
    [ .createTable true "tasks"
        [ ⟨"id", .text, true, true, false, none⟩
        , nnCol "prompt" .text
        , ⟨"status", .text, true, false, false, some (.str "running")⟩
        , plainCol "cost" .real
        , plainCol "duration" .integer
        , tsCol "created_at"
        , tsCol "updated_at" ]
        []
    , .createTable true "messages"
        [ ⟨"id", .integer, false, true, true, none⟩
        , nnCol "task_id" .text
        , nnCol "type" .text
        , plainCol "content" .text
        , plainCol "tool_name" .text
        , plainCol "tool_input" .text
        , plainCol "subtype" .text
        , plainCol "error_message" .text
        , tsCol "created_at" ]
        [ ⟨"task_id", "tasks", "id", true⟩ ]
    , .createIndex true "idx_messages_task_id" "messages" "task_id" ]
  kind := .up

/-- Version 2: `add_tool_result_fields`. -/
def migration2 : Migration where
  version := 2
  description := "add_tool_result_fields"
  sql :=
    [ .alterAddColumn "messages" (plainCol "tool_output" .text)
    , .alterAddColumn "messages" (plainCol "tool_use_id" .text) ]
  kind := .up

/-- Version 3: `create_files_table`. -/
def migration3 : Migration where
  version := 3
  description := "create_files_table"
  sql :=
    [ .createTable true "files"
        [ ⟨"id", .integer, false, true, true, none⟩
        , nnCol "task_id" .text
        , nnCol "name" .text
        , nnCol "type" .text
        , nnCol "path" .text
        , plainCol "preview" .text
        , plainCol "thumbnail" .text
        , ⟨"is_favorite", .integer, true, false, false, some (.intVal 0)⟩
        , tsCol "created_at" ]
        [ ⟨"task_id", "tasks", "id", true⟩ ]
    , .createIndex true "idx_files_task_id" "files" "task_id" ]
  kind := .up

/-- Version 4: `create_settings_table`. -/
def migration4 : Migration where
  version := 4
  description := "create_settings_table"
  sql :=
    [ .createTable true "settings"
        [ ⟨"key", .text, true, true, false, none⟩
        , nnCol "value" .text
        , tsCol "updated_at" ]
        [] ]
  kind := .up

/-- Version 5: `create_sessions_table_and_update_tasks`. -/
def migration5 : Migration where
  version := 5
  description := "create_sessions_table_and_update_tasks"
  sql :=
    [ .createTable true "sessions"
        [ ⟨"id", .text, true, true, false, none⟩
        , nnCol "prompt" .text
        , ⟨"task_count", .integer, true, false, false, some (.intVal 0)⟩
        , tsCol "created_at"
        , tsCol "updated_at" ]
        []
    , .alterAddColumn "tasks" (plainCol "session_id" .text)
    , .alterAddColumn "tasks" ⟨"task_index", .integer, false, false, false, some (.intVal 1)⟩
    , .createIndex true "idx_tasks_session_id" "tasks" "session_id" ]
  kind := .up

/-- The build-time changeset list passed to `add_migrations` in `run`. -/
def migrations : List Migration :=
  [migration1, migration2, migration3, migration4, migration5]

/-! ## Store schema state and DDL execution -/

/-- One created table: its name, its columns in declaration order (columns
added by `ALTER TABLE ... ADD COLUMN` are appended at the end), and its
foreign-key declarations. -/
structure Table where
  name : String
  columns : List Column
  fks : List ForeignKey
deriving DecidableEq, Repr

/-- One created secondary index. -/
structure IndexDef where
  name : String
  table : String
  column : String
deriving DecidableEq, Repr

/-- The schema of the store: the application tables and secondary indexes
created so far (the migration ledger itself is tracked separately). -/
structure Schema where
  tables : List Table
  indexes : List IndexDef
deriving DecidableEq, Repr

/-- The schema of an empty store: no application tables, no indexes. -/
def emptySchema : Schema := ⟨[], []⟩

def schemaHasTable (s : Schema) (n : String) : Bool :=
  s.tables.any (fun t => t.name == n)

def schemaHasIndex (s : Schema) (n : String) : Bool :=
  s.indexes.any (fun i => i.name == n)

def tableHasColumn (t : Table) (c : String) : Bool :=
  t.columns.any (fun col => col.name == c)

/-- Errors a single DDL statement can produce, following SQLite behaviour:
creating an object that already exists without an `IF NOT EXISTS` guard,
referencing a missing table, or adding a column that already exists. -/
inductive ExecError where
  | tableExists (name : String)
  | indexExists (name : String)
  | noSuchTable (name : String)
  | duplicateColumn (table : String) (column : String)
deriving DecidableEq, Repr

/-- Modelled from the spec: execution of one DDL statement against the
store schema is performed by the embedded SQLite engine, which is not
part of the repository source.  `CREATE TABLE`/`CREATE INDEX` with
`IF NOT EXISTS` are no-ops when the object exists and fail without the
guard; `ALTER TABLE ... ADD COLUMN` appends the column and fails with a
duplicate-column error if it is already present. -/
def execStmt (s : Schema) : Stmt → Except ExecError Schema
  | .createTable ine n cols fks =>
      if schemaHasTable s n then
        if ine then .ok s else .error (.tableExists n)
      else
        .ok { s with tables := s.tables ++ [⟨n, cols, fks⟩] }
  | .createIndex ine n tbl col =>
      if schemaHasIndex s n then
        if ine then .ok s else .error (.indexExists n)
      else if schemaHasTable s tbl then
        .ok { s with indexes := s.indexes ++ [⟨n, tbl, col⟩] }
      else
        .error (.noSuchTable tbl)
  | .alterAddColumn tbl col =>
      match s.tables.find? (fun t => t.name == tbl) with
      | none => .error (.noSuchTable tbl)
      | some t =>
          if tableHasColumn t col.name then
            .error (.duplicateColumn tbl col.name)
          else
            .ok { s with tables :=
              s.tables.map (fun u =>
                if u.name == tbl then { u with columns := u.columns ++ [col] } else u) }

/-- Run the statements of one changeset in order, stopping at the first
error. -/
def execStmts (s : Schema) : List Stmt → Except ExecError Schema
  | [] => .ok s
  | st :: rest =>
      match execStmt s st with
      | .error e => .error e
      | .ok s2 => execStmts s2 rest

/-! ## The migration engine -/

/-- Modelled from the spec: the applied-version ledger and the store state.
The engine of `tauri_plugin_sql` is not part of the repository source; per
the spec the store durably records every applied version in an append-only
ledger next to the schema itself. -/
structure Store where
  ledger : List Nat
  schema : Schema
deriving DecidableEq, Repr

/-- A completely fresh store: empty ledger, empty schema. -/
def emptyStore : Store := ⟨[], emptySchema⟩

/-- The highest version recorded in the ledger, `0` when the ledger is
empty (the spec's implicit version-0 bootstrap state). -/
def currentVersion (st : Store) : Nat :=
  st.ledger.foldr max 0

/-- Errors of the migration engine, from the spec error taxonomy:
`StatementFailed{version, cause}` and `LedgerCorrupt`. -/
inductive MigrationError where
  | statementFailed (version : Nat) (cause : ExecError)
  | ledgerCorrupt
deriving DecidableEq, Repr

/-- Modelled from the spec: apply a list of pending changesets in order.
Each changeset is one atomic unit: either all its statements succeed and
its version is appended to the ledger, or the store is left exactly as it
was before that changeset and the engine stops with `statementFailed`
naming the changeset's version.  The store reached so far is returned
together with the error, reflecting that earlier changesets were already
durably committed. -/
def applyFrom (st : Store) : List Migration → Store × Option MigrationError
  | [] => (st, none)
  | m :: rest =>
      match execStmts st.schema m.sql with
      | .error e => (st, some (.statementFailed m.version e))
      | .ok sch => applyFrom ⟨st.ledger ++ [m.version], sch⟩ rest

/-- The changesets still pending for a store: those whose version is
strictly greater than the recorded maximum, in ascending version order. -/
def pending (st : Store) (ms : List Migration) : List Migration :=
  (ms.insertionSort (fun a b => a.version ≤ b.version)).filter
    (fun m => decide (currentVersion st < m.version))

/-- The highest version among the known changesets. -/
def maxKnownVersion (ms : List Migration) : Nat :=
  ms.foldr (fun m acc => max m.version acc) 0

/-- Modelled from the spec: the migration engine's `apply` operation.
It refuses to proceed (`ledgerCorrupt`) when the recorded version exceeds
every known changeset; otherwise it executes exactly the pending
changesets, each atomically, in ascending version order. -/
def apply (st : Store) (ms : List Migration) : Store × Option MigrationError :=
  if maxKnownVersion ms < currentVersion st then
    (st, some .ledgerCorrupt)
  else
    applyFrom st (pending st ms)

/-! ## Startup orchestrator: runtime mode and sidecar environment contract -/

/-- The build-time runtime mode: `production` corresponds to
`cfg(not(debug_assertions))` in `run`, `development` to
`cfg(debug_assertions)`. -/
inductive RuntimeMode where
  | production
  | development
deriving DecidableEq, Repr

/-- A request to the process supervisor: the logical executable name and
the environment overlay passed via `.env(...)` calls. -/
structure SpawnRequest where
  executable : String
  envOverlay : List (String × String)
deriving DecidableEq, Repr

/-- The sidecar spawn decision of `run`'s setup hook, transcribed from the
two conditionally-compiled blocks: in production the sidecar
`workany-api` is spawned with the overlay `PORT=2620`, `NODE_ENV=production`;
in development no spawn request is made at all. -/
def setupSpawnRequest : RuntimeMode → Option SpawnRequest
  | .production => some ⟨"workany-api", [("PORT", "2620"), ("NODE_ENV", "production")]⟩
  | .development => none

/-- Merging an environment overlay onto an inherited environment, as
`Command::env` does: overlay keys win, all other keys keep their
inherited value. -/
def overlayEnv (base : String → Option String) (overlay : List (String × String))
    (k : String) : Option String :=
  match overlay.lookup k with
  | some v => some v
  | none => base k

/-! ## Process supervisor: spawn and the event stream -/

/-- Mirrors `tauri_plugin_shell::process::CommandEvent`: stdout and stderr
carry raw byte chunks, `error` carries a runtime error message,
`terminated` carries the exit payload.  The extra `other` constructor
stands for the non-exhaustive remainder matched by the `_ => {}` arm of
the draining loop. -/
inductive CommandEvent where
  | stdout (bytes : List Nat)
  | stderr (bytes : List Nat)
  | error (msg : String)
  | terminated (code : Option Int) (signal : Option Int)
  | other
deriving DecidableEq, Repr

/-- Whether an event is a `terminated` event. -/
def CommandEvent.isTerminated : CommandEvent → Bool
  | .terminated _ _ => true
  | _ => false

/-- The spawn-time errors of the supervisor, from the spec taxonomy:
executable resolution failure or OS launch failure. -/
inductive SpawnError where
  | spawnFailed (executable : String)
deriving DecidableEq, Repr

/-- A handle to one running sidecar process. -/
structure ProcessHandle where
  pid : Nat
deriving DecidableEq, Repr

/-- The event stream handed to the draining task. -/
structure EventStream where
  events : List CommandEvent
deriving DecidableEq, Repr

/-- Modelled from the spec: the supervisor's `spawn` operation lives in
`tauri_plugin_shell`, not in the repository source.  `resolve` stands for
the platform sidecar resolution; when it fails, `spawn` returns a
`SpawnError` synchronously and produces neither a process handle nor an
event stream. -/
def spawn (resolve : String → Option Nat) (req : SpawnRequest) :
    Except SpawnError (ProcessHandle × EventStream) :=
  match resolve req.executable with
  | none => .error (.spawnFailed req.executable)
  | some pid => .ok (⟨pid⟩, ⟨[]⟩)

/-- The outcome of the production setup step. -/
inductive StartupOutcome where
  | ready (handle : ProcessHandle)
  | aborted (reason : String)
deriving DecidableEq, Repr

/-- The production branch of `run`'s setup hook: spawn the sidecar; on
failure the `.expect` call panics, aborting startup with the message
`Failed to spawn API sidecar`. -/
def productionSetup (resolve : String → Option Nat) : StartupOutcome :=
  match setupSpawnRequest .production with
  | none => .aborted "no spawn request in production"
  | some req =>
      match spawn resolve req with
      | .error _ => .aborted "Failed to spawn API sidecar"
      | .ok (h, _) => .ready h

/-! ## Permissive UTF-8 decoding (`String::from_utf8_lossy`) -/

/-- Decode one scalar value from the byte `b` followed by `rest`,
returning the decoded code point and the bytes remaining after it.
Mirrors the maximal-subpart substitution of `String::from_utf8_lossy`:
a well-formed sequence decodes to its code point; an ill-formed sequence
yields the replacement character `U+FFFD` and decoding resumes at the
first byte that does not extend a valid prefix. -/
def decodeOne (b : Nat) (rest : List Nat) : Nat × List Nat :=
  if b < 0x80 then
    (b, rest)
  else if b < 0xC2 then
    (0xFFFD, rest)
  else if b < 0xE0 then
    match rest with
    | [] => (0xFFFD, [])
    | b1 :: r1 =>
        if 0x80 ≤ b1 ∧ b1 < 0xC0 then
          ((b - 0xC0) * 0x40 + (b1 - 0x80), r1)
        else
          (0xFFFD, b1 :: r1)
  else if b < 0xF0 then
    match rest with
    | [] => (0xFFFD, [])
    | b1 :: r1 =>
        if 0x80 ≤ b1 ∧ b1 < 0xC0 ∧ ¬(b = 0xE0 ∧ b1 < 0xA0) ∧ ¬(b = 0xED ∧ 0xA0 ≤ b1) then
          match r1 with
          | [] => (0xFFFD, [])
          | b2 :: r2 =>
              if 0x80 ≤ b2 ∧ b2 < 0xC0 then
                ((b - 0xE0) * 0x1000 + (b1 - 0x80) * 0x40 + (b2 - 0x80), r2)
              else
                (0xFFFD, b2 :: r2)
        else
          (0xFFFD, b1 :: r1)
  else if b < 0xF5 then
    match rest with
    | [] => (0xFFFD, [])
    | b1 :: r1 =>
        if 0x80 ≤ b1 ∧ b1 < 0xC0 ∧ ¬(b = 0xF0 ∧ b1 < 0x90) ∧ ¬(b = 0xF4 ∧ 0x90 ≤ b1) then
          match r1 with
          | [] => (0xFFFD, [])
          | b2 :: r2 =>
              if 0x80 ≤ b2 ∧ b2 < 0xC0 then
                match r2 with
                | [] => (0xFFFD, [])
                | b3 :: r3 =>
                    if 0x80 ≤ b3 ∧ b3 < 0xC0 then
                      ((b - 0xF0) * 0x40000 + (b1 - 0x80) * 0x1000 +
                        (b2 - 0x80) * 0x40 + (b3 - 0x80), r3)
                    else
                      (0xFFFD, b3 :: r3)
              else
                (0xFFFD, b2 :: r2)
          else
            (0xFFFD, b1 :: r1)
    else
      (0xFFFD, rest)

/-- Fuelled decoding loop; each step consumes at least the leading byte,
so fuel equal to the input length always suffices (`utf8go_fuel`). -/
def utf8go : Nat → List Nat → List Nat
  | 0, _ => []
  | _, [] => []
  | n + 1, b :: rest => (decodeOne b rest).1 :: utf8go n (decodeOne b rest).2

/-- Permissive decoding of a whole byte chunk, total on every input:
the model of `String::from_utf8_lossy` used by the draining loop.  The
result is the list of decoded Unicode scalar values. -/
def utf8DecodeLossy (l : List Nat) : List Nat :=
  utf8go l.length l

/-- A Unicode scalar value: below the surrogate range or above it and
below `0x110000`.  `U+FFFD` is a scalar value in the second branch. -/
def ValidScalar (c : Nat) : Prop :=
  c < 0xD800 ∨ (0xE000 ≤ c ∧ c < 0x110000)

instance (c : Nat) : Decidable (ValidScalar c) := by
  unfold ValidScalar
  infer_instance

/-! ## The draining task of `run`'s setup hook -/

/-- One log line emitted by the draining loop, mirroring its four
`println!`/`eprintln!` arms: decoded stdout chunks under the `[API]`
banner, decoded stderr chunks under `[API Error]`, runtime errors under
`[API Spawn Error]`, and the termination notice. -/
inductive LogLine where
  | api (chunk : List Nat)
  | apiErr (chunk : List Nat)
  | apiSpawnErr (msg : String)
  | apiTerminated (code : Option Int) (signal : Option Int)
deriving DecidableEq, Repr

/-- The log line produced for one received event, when the loop keeps
running: the wildcard arm logs nothing. -/
def logOf : CommandEvent → Option LogLine
  | .stdout b => some (.api (utf8DecodeLossy b))
  | .stderr b => some (.apiErr (utf8DecodeLossy b))
  | .error m => some (.apiSpawnErr m)
  | .terminated c s => some (.apiTerminated c s)
  | .other => none

/-- The draining task of `run`, transcribed from the
`while let Some(event) = _rx.recv().await` loop: each received event is
logged via `logOf`; a `terminated` event is logged and then the loop
`break`s, so no later event is received. -/
def drain : List CommandEvent → List LogLine
  | [] => []
  | .stdout b :: rest => .api (utf8DecodeLossy b) :: drain rest
  | .stderr b :: rest => .apiErr (utf8DecodeLossy b) :: drain rest
  | .error m :: rest => .apiSpawnErr m :: drain rest
  | .terminated c s :: _ => [.apiTerminated c s]
  | .other :: rest => drain rest

/-! ## Row-level cascade delete (claim about the migrated schema) -/

/-- Whether table `tbl` of schema `s` declares a foreign key on its
`task_id` column referencing `tasks(id)` with `ON DELETE CASCADE`. -/
def cascadesFromTasks (s : Schema) (tbl : String) : Bool :=
  match s.tables.find? (fun t => t.name == tbl) with
  | none => false
  | some t =>
      t.fks.any (fun f =>
        f.column == "task_id" && f.refTable == "tasks" &&
        f.refColumn == "id" && f.onDeleteCascade)

/-- Row contents of the three tables involved in the cascade: `tasks`
rows are identified by their `id` primary key; `messages` and `files`
rows by their integer `id` together with their `task_id` value. -/
structure Db where
  taskRows : List String
  messageRows : List (Nat × String)
  fileRows : List (Nat × String)
deriving DecidableEq, Repr

/-- Modelled from the spec: `ON DELETE CASCADE` enforcement is performed
by the embedded SQLite engine, not by repository code.  Deleting a
`tasks` row removes it, and removes the rows of each child table exactly
when that table's schema declares a cascading foreign key on `task_id`
to `tasks`. -/
def deleteTask (s : Schema) (db : Db) (tid : String) : Db where
  taskRows := db.taskRows.filter (fun r => r ≠ tid)
  messageRows :=
    if cascadesFromTasks s "messages" then
      db.messageRows.filter (fun r => r.2 ≠ tid)
    else
      db.messageRows
  fileRows :=
    if cascadesFromTasks s "files" then
      db.fileRows.filter (fun r => r.2 ≠ tid)
    else
      db.fileRows

/-! ## Statement-level idempotence guards -/

/-- Whether every `CREATE TABLE` and `CREATE INDEX` statement of a
changeset carries the `IF NOT EXISTS` guard. -/
def createsGuarded (m : Migration) : Bool :=
  m.sql.all fun st =>
    match st with
    | .createTable ine _ _ _ => ine
    | .createIndex ine _ _ _ => ine
    | .alterAddColumn _ _ => true

/-! ## The migrated store and schema accessors -/

/-- The store obtained by applying the full build-time changeset list to a
fresh store. -/
def migratedStore : Store := (apply emptyStore migrations).1

/-- The schema of the fully migrated store. -/
def migratedSchema : Schema := migratedStore.schema

/-- The table named `tbl`, when present. -/
def tableOf (s : Schema) (tbl : String) : Option Table :=
  s.tables.find? (fun t => t.name == tbl)

/-- The declared column names of table `tbl` (empty when absent). -/
def columnNamesOf (s : Schema) (tbl : String) : List String :=
  match tableOf s tbl with
  | none => []
  | some t => t.columns.map Column.name

/-- The declaration of column `c` of table `tbl`, when present. -/
def columnOf (s : Schema) (tbl c : String) : Option Column :=
  match tableOf s tbl with
  | none => none
  | some t => t.columns.find? (fun col => col.name == c)

/-- The `DEFAULT` clause of column `c` of table `tbl`. -/
def defaultOf (s : Schema) (tbl c : String) : Option DefaultVal :=
  match columnOf s tbl c with
  | none => none
  | some col => col.dflt

/-- Whether column `c` of table `tbl` is declared `PRIMARY KEY`. -/
def columnIsPrimaryKey (s : Schema) (tbl c : String) : Bool :=
  match columnOf s tbl c with
  | none => false
  | some col => col.primaryKey

/-- Whether column `c` of table `tbl` is declared `AUTOINCREMENT`. -/
def columnIsAutoincrement (s : Schema) (tbl c : String) : Bool :=
  match columnOf s tbl c with
  | none => false
  | some col => col.autoincrement

/-- The foreign-key declarations of table `tbl` (empty when absent). -/
def fksOf (s : Schema) (tbl : String) : List ForeignKey :=
  match tableOf s tbl with
  | none => []
  | some t => t.fks

/-- Columns of `tasks` as listed in the spec's external-interface section. -/
def specTasksColumns : List String :=
  ["id", "prompt", "status", "cost", "duration", "created_at", "updated_at",
   "session_id", "task_index"]

/-- Columns of `messages` as listed in the spec's external-interface section. -/
def specMessagesColumns : List String :=
  ["id", "task_id", "type", "content", "tool_name", "tool_input", "subtype",
   "error_message", "tool_output", "tool_use_id", "created_at"]

/-- Columns of `files` as listed in the spec's external-interface section. -/
def specFilesColumns : List String :=
  ["id", "task_id", "name", "type", "path", "preview", "thumbnail",
   "is_favorite", "created_at"]

/-- Columns of `settings` as listed in the spec's external-interface section. -/
def specSettingsColumns : List String :=
  ["key", "value", "updated_at"]

/-- Columns of `sessions` as listed in the spec's external-interface section. -/
def specSessionsColumns : List String :=
  ["id", "prompt", "task_count", "created_at", "updated_at"]

/-- The secondary indexes (table, column) listed in the spec's
external-interface section: `messages.task_id`, `files.task_id`,
`tasks.session_id`. -/
def specSecondaryIndexes : List (String × String) :=
  [("messages", "task_id"), ("files", "task_id"), ("tasks", "session_id")]

/-! ## Helper lemmas -/

theorem decodeOne_valid (b : Nat) (rest : List Nat) : ValidScalar (decodeOne b rest).1 := by
  unfold decodeOne
  repeat' split
  all_goals dsimp only
  all_goals unfold ValidScalar
  all_goals omega

theorem decodeOne_len (b : Nat) (rest : List Nat) :
    (decodeOne b rest).2.length ≤ rest.length := by
  unfold decodeOne
  repeat' split
  all_goals dsimp only
  all_goals simp_all [List.length_cons]
  all_goals omega

theorem utf8go_fuel (m : Nat) : ∀ (n : Nat) (l : List Nat), l.length ≤ m → l.length ≤ n →
    utf8go m l = utf8go n l := by
  induction m with
  | zero =>
      intro n l hm _
      have : l = [] := List.eq_nil_of_length_eq_zero (Nat.le_zero.mp hm)
      subst this
      cases n <;> rfl
  | succ m ih =>
      intro n l hm hn
      cases l with
      | nil => cases n <;> rfl
      | cons b rest =>
          cases n with
          | zero => simp at hn
          | succ k =>
              have hlen := decodeOne_len b rest
              simp only [utf8go]
              rw [ih k (decodeOne b rest).2 (by simp at hm; omega) (by simp at hn; omega)]

theorem utf8go_valid (n : Nat) : ∀ (l : List Nat), ∀ c ∈ utf8go n l, ValidScalar c := by
  induction n with
  | zero => intro l c hc; simp [utf8go] at hc
  | succ n ih =>
      intro l c hc
      cases l with
      | nil => simp [utf8go] at hc
      | cons b rest =>
          simp only [utf8go, List.mem_cons] at hc
          rcases hc with h | h
          · subst h; exact decodeOne_valid b rest
          · exact ih _ c h

theorem utf8DecodeLossy_valid (l : List Nat) : ∀ c ∈ utf8DecodeLossy l, ValidScalar c :=
  utf8go_valid l.length l

theorem drain_of_no_terminated (pre : List CommandEvent)
    (h : ∀ e ∈ pre, e.isTerminated = false) :
    drain pre = pre.filterMap logOf := by
  induction pre with
  | nil => rfl
  | cons e rest ih =>
      have he := h e (List.mem_cons_self e rest)
      have hrest : ∀ x ∈ rest, x.isTerminated = false :=
        fun x hx => h x (List.mem_cons_of_mem e hx)
      cases e <;> simp_all [drain, logOf, List.filterMap, CommandEvent.isTerminated]

theorem drain_stops_first_terminated (pre post : List CommandEvent) (c s : Option Int)
    (h : ∀ e ∈ pre, e.isTerminated = false) :
    drain (pre ++ .terminated c s :: post) = pre.filterMap logOf ++ [.apiTerminated c s] := by
  induction pre with
  | nil => rfl
  | cons e rest ih =>
      have he := h e (List.mem_cons_self e rest)
      have hrest : ∀ x ∈ rest, x.isTerminated = false :=
        fun x hx => h x (List.mem_cons_of_mem e hx)
      cases e <;> simp_all [drain, logOf, List.filterMap, CommandEvent.isTerminated]

theorem migrations_sorted :
    migrations.insertionSort (fun a b => a.version ≤ b.version) = migrations := by decide

theorem pending_eq_filter (st : Store) :
    pending st migrations
      = migrations.filter (fun m => decide (currentVersion st < m.version)) := by
  unfold pending
  rw [migrations_sorted]

theorem filter_versions (P : Nat → Bool) :
    (migrations.filter (fun m => P m.version)).map Migration.version
      = [1, 2, 3, 4, 5].filter P := by
  have e1 : migration1.version = 1 := rfl
  have e2 : migration2.version = 2 := rfl
  have e3 : migration3.version = 3 := rfl
  have e4 : migration4.version = 4 := rfl
  have e5 : migration5.version = 5 := rfl
  show (List.filter _ [migration1, migration2, migration3, migration4, migration5]).map _ = _
  cases h1 : P 1 <;> cases h2 : P 2 <;> cases h3 : P 3 <;> cases h4 : P 4 <;> cases h5 : P 5 <;>
    simp [List.filter_cons, e1, e2, e3, e4, e5, h1, h2, h3, h4, h5]

/-! ## Claim theorems -/

/-- Claim C1: applying the build-time changeset list (versions 1 through 5)
to an empty store succeeds, records versions `{1,2,3,4,5}` in the ledger,
and produces exactly the five application tables `tasks`, `messages`,
`files`, `settings`, `sessions`, whose column sets, primary keys,
autoincrement flags, defaults, foreign keys and secondary indexes are
those listed in the spec's external-interface section. -/
theorem migration_fresh_bootstrap :
    (apply emptyStore migrations).2 = none
    ∧ migratedStore.ledger = [1, 2, 3, 4, 5]
    ∧ migratedSchema.tables.map Table.name
        = ["tasks", "messages", "files", "settings", "sessions"]
    ∧ (columnNamesOf migratedSchema "tasks").Perm specTasksColumns
    ∧ (columnNamesOf migratedSchema "messages").Perm specMessagesColumns
    ∧ (columnNamesOf migratedSchema "files").Perm specFilesColumns
    ∧ (columnNamesOf migratedSchema "settings").Perm specSettingsColumns
    ∧ (columnNamesOf migratedSchema "sessions").Perm specSessionsColumns
    ∧ columnIsPrimaryKey migratedSchema "tasks" "id" = true
    ∧ columnIsPrimaryKey migratedSchema "messages" "id" = true
    ∧ columnIsAutoincrement migratedSchema "messages" "id" = true
    ∧ columnIsPrimaryKey migratedSchema "files" "id" = true
    ∧ columnIsAutoincrement migratedSchema "files" "id" = true
    ∧ columnIsPrimaryKey migratedSchema "settings" "key" = true
    ∧ columnIsPrimaryKey migratedSchema "sessions" "id" = true
    ∧ defaultOf migratedSchema "tasks" "status" = some (.str "running")
    ∧ defaultOf migratedSchema "tasks" "task_index" = some (.intVal 1)
    ∧ defaultOf migratedSchema "files" "is_favorite" = some (.intVal 0)
    ∧ defaultOf migratedSchema "sessions" "task_count" = some (.intVal 0)
    ∧ fksOf migratedSchema "messages" = [⟨"task_id", "tasks", "id", true⟩]
    ∧ fksOf migratedSchema "files" = [⟨"task_id", "tasks", "id", true⟩]
    ∧ (migratedSchema.indexes.map fun i => (i.table, i.column)).Perm specSecondaryIndexes := by
  decide

/-- Claim C2: for every store, the engine's pending list for the
build-time changeset list consists of exactly the changesets with version
strictly greater than the recorded maximum, in strictly ascending version
order with no repetition; `apply` executes exactly that list (when the
ledger is not beyond the known versions); a store at version 3 has
pending versions `[4, 5]`. -/
theorem migration_apply_ordering (st : Store) :
    (pending st migrations).map Migration.version
      = [1, 2, 3, 4, 5].filter (fun k => decide (currentVersion st < k))
    ∧ ((pending st migrations).map Migration.version).Sorted (· < ·)
    ∧ ((pending st migrations).map Migration.version).Nodup
    ∧ (∀ m ∈ pending st migrations, currentVersion st < m.version)
    ∧ (currentVersion st ≤ maxKnownVersion migrations →
        apply st migrations = applyFrom st (pending st migrations))
    ∧ (pending ⟨[1, 2, 3], emptySchema⟩ migrations).map Migration.version = [4, 5] := by
  have hfv := filter_versions (fun k => decide (currentVersion st < k))
  refine ⟨?_, ?_, ?_, ?_, ?_, by decide⟩
  · rw [pending_eq_filter]; exact hfv
  · rw [pending_eq_filter, filter_versions (fun k => decide (currentVersion st < k))]
    exact List.Pairwise.sublist (List.filter_sublist _) (by decide)
  · rw [pending_eq_filter, filter_versions (fun k => decide (currentVersion st < k))]
    exact List.Nodup.filter _ (by decide)
  · rw [pending_eq_filter]
    intro m hm
    simp [List.mem_filter] at hm
    exact hm.2
  · intro h
    have hmax : maxKnownVersion migrations = 5 := by decide
    unfold apply
    rw [if_neg (by omega)]

/-- Witness for C2 at the store recording versions `{1,2,3}`. -/
theorem migration_apply_ordering_witness :
    apply ⟨[1, 2, 3], emptySchema⟩ migrations
      = applyFrom ⟨[1, 2, 3], emptySchema⟩ (pending ⟨[1, 2, 3], emptySchema⟩ migrations)
    ∧ (pending ⟨[1, 2, 3], emptySchema⟩ migrations).map Migration.version = [4, 5]
    ∧ currentVersion ⟨[1, 2, 3], emptySchema⟩ < migration4.version := by
  have h := migration_apply_ordering ⟨[1, 2, 3], emptySchema⟩
  exact ⟨h.2.2.2.2.1 (by decide), h.2.2.2.2.2,
    h.2.2.2.1 migration4 (by decide)⟩

/-- Claim C3: applying the full changeset list to a fresh store, then
applying the same list again, is a no-op on the second pass: the same
store comes back (identical schema, identical ledger with no duplicate
version records) and no error is raised. -/
theorem migration_reapply_noop :
    apply emptyStore migrations = (migratedStore, none)
    ∧ apply migratedStore migrations = (migratedStore, none)
    ∧ migratedStore.ledger.Nodup := by
  decide

/-- Claim C4: a changeset's statements and its ledger record are one
atomic unit.  When a statement of changeset `m` fails with cause `e`, the
engine stops with `statementFailed m.version e` and the store is returned
exactly as it was: the ledger does not record `m.version`, no
partially-applied schema change is left behind, and earlier applied
versions remain.  Retrying from that same store with a corrected
changeset `mfix` executes it and records its version, with no manual
cleanup. -/
theorem migration_changeset_atomicity (st : Store) (m mfix : Migration)
    (rest : List Migration) (e : ExecError) (sch : Schema)
    (hfail : execStmts st.schema m.sql = .error e)
    (hfix : execStmts st.schema mfix.sql = .ok sch) :
    applyFrom st (m :: rest) = (st, some (.statementFailed m.version e))
    ∧ applyFrom st (mfix :: rest) = applyFrom ⟨st.ledger ++ [mfix.version], sch⟩ rest := by
  constructor
  · simp only [applyFrom, hfail]
  · simp only [applyFrom, hfix]

/-- Witness for C4: version 2 `ALTER TABLE` fails on a fresh store (no
`messages` table yet) leaving the store untouched; retrying with version
4 (a corrected changeset whose statements succeed there) applies and
records it. -/
theorem migration_changeset_atomicity_witness :
    applyFrom emptyStore [migration2]
      = (emptyStore, some (.statementFailed 2 (.noSuchTable "messages")))
    ∧ applyFrom emptyStore [migration4]
      = (⟨[4], ⟨[⟨"settings",
            [⟨"key", .text, true, true, false, none⟩,
             nnCol "value" .text, tsCol "updated_at"], []⟩], []⟩⟩, none) := by
  have h := migration_changeset_atomicity emptyStore migration2 migration4 []
    (.noSuchTable "messages")
    ⟨[⟨"settings",
        [⟨"key", .text, true, true, false, none⟩,
         nnCol "value" .text, tsCol "updated_at"], []⟩], []⟩
    (by rfl) (by rfl)
  exact ⟨h.1, h.2.trans (by rfl)⟩

/-- Claim C5: in production mode the orchestrator requests the sidecar
`workany-api` with exactly the environment overlay `PORT=2620`,
`NODE_ENV=production`; in development mode no spawn request is made; and
merging that overlay onto any inherited environment yields exactly the
two contract values on their keys and the inherited value everywhere
else. -/
theorem sidecar_env_contract :
    setupSpawnRequest .production
      = some ⟨"workany-api", [("PORT", "2620"), ("NODE_ENV", "production")]⟩
    ∧ setupSpawnRequest .development = none
    ∧ ∀ (base : String → Option String) (k : String),
        overlayEnv base [("PORT", "2620"), ("NODE_ENV", "production")] k
          = if k = "PORT" then some "2620"
            else if k = "NODE_ENV" then some "production" else base k := by
  refine ⟨rfl, rfl, ?_⟩
  intro base k
  unfold overlayEnv
  by_cases hp : k = "PORT"
  · subst hp; simp [List.lookup]
  · by_cases hn : k = "NODE_ENV"
    · subst hn; simp [List.lookup]
    · have h1 : (k == "PORT") = false := beq_eq_false_iff_ne.mpr hp
      have h2 : (k == "NODE_ENV") = false := beq_eq_false_iff_ne.mpr hn
      simp [List.lookup, h1, h2, hp, hn]

/-- Claim C6: when the executable name does not resolve, `spawn` fails
synchronously with a `SpawnError` and returns neither a process handle
nor an event stream; in production mode that failure aborts startup with
the fatal `Failed to spawn API sidecar` message rather than silently
continuing without a backend. -/
theorem spawn_failure_sync (resolve : String → Option Nat) (req : SpawnRequest)
    (h : resolve req.executable = none)
    (hprod : resolve "workany-api" = none) :
    spawn resolve req = .error (.spawnFailed req.executable)
    ∧ productionSetup resolve = .aborted "Failed to spawn API sidecar" := by
  constructor
  · unfold spawn; rw [h]
  · simp [productionSetup, setupSpawnRequest, spawn, hprod]

/-- Witness for C6 with a resolver that knows no executable. -/
theorem spawn_failure_sync_witness :
    spawn (fun _ => none) ⟨"missing-exe", []⟩ = .error (.spawnFailed "missing-exe")
    ∧ productionSetup (fun _ => none) = .aborted "Failed to spawn API sidecar" :=
  spawn_failure_sync (fun _ => none) ⟨"missing-exe", []⟩ rfl rfl

/-- Claim C7: the draining task handles events in delivery order and stops
exactly at the first `terminated` event: every event before it is
processed, in order, and no event after it is processed (the drained log
does not depend on the events past the first `terminated`). -/
theorem drain_terminates_in_order (pre post : List CommandEvent) (c s : Option Int)
    (h : ∀ e ∈ pre, e.isTerminated = false) :
    drain (pre ++ .terminated c s :: post) = pre.filterMap logOf ++ [.apiTerminated c s]
    ∧ drain (pre ++ .terminated c s :: post) = drain (pre ++ [.terminated c s]) := by
  constructor
  · exact drain_stops_first_terminated pre post c s h
  · rw [drain_stops_first_terminated pre post c s h,
      drain_stops_first_terminated pre [] c s h]

/-- Witness for C7: a child writing `A` then `B` to stdout before exiting
yields `Stdout(A)`, `Stdout(B)`, `Terminated` in that relative order, and
an event delivered after termination is never processed. -/
theorem drain_terminates_in_order_witness :
    drain [.stdout [65], .stdout [66], .terminated (some 0) none, .stdout [67]]
      = [.api [65], .api [66], .apiTerminated (some 0) none] := by
  have h := drain_terminates_in_order [.stdout [65], .stdout [66]]
    [.stdout [67]] (some 0) none (by decide)
  exact h.1.trans (by decide)

/-- Claim C8: decoding of stdout/stderr byte chunks in the draining task
is total and never surfaces an error: every chunk (line-aligned or not,
valid UTF-8 or not) is logged after permissive decoding, every decoded
code point is a valid Unicode scalar value, and an invalid byte decodes
to the replacement marker `U+FFFD`. -/
theorem drain_decoding_total (bytes : List Nat) (rest : List CommandEvent) :
    drain (.stdout bytes :: rest) = .api (utf8DecodeLossy bytes) :: drain rest
    ∧ drain (.stderr bytes :: rest) = .apiErr (utf8DecodeLossy bytes) :: drain rest
    ∧ (∀ c ∈ utf8DecodeLossy bytes, ValidScalar c)
    ∧ utf8DecodeLossy [0xFF, 0x41] = [0xFFFD, 0x41] :=
  ⟨rfl, rfl, utf8DecodeLossy_valid bytes, by decide⟩

/-- Witness for C8 on the invalid chunk `[0xFF]`. -/
theorem drain_decoding_total_witness :
    drain [.stdout [0xFF]] = [.api [0xFFFD]] ∧ ValidScalar 0xFFFD := by
  have h := drain_decoding_total [0xFF] []
  exact ⟨h.1.trans (by decide), h.2.2.1 0xFFFD (by decide)⟩

/-- Claim C9: in the fully migrated schema, `messages` and `files` both
carry a cascading foreign key on `task_id` to `tasks`, so deleting a
`tasks` row deletes exactly the `messages` and `files` rows whose
`task_id` references it and keeps every other row. -/
theorem cascade_delete_semantics (db : Db) (tid : String) :
    cascadesFromTasks migratedSchema "messages" = true
    ∧ cascadesFromTasks migratedSchema "files" = true
    ∧ (deleteTask migratedSchema db tid).messageRows
        = db.messageRows.filter (fun r => r.2 ≠ tid)
    ∧ (deleteTask migratedSchema db tid).fileRows
        = db.fileRows.filter (fun r => r.2 ≠ tid)
    ∧ (deleteTask migratedSchema db tid).taskRows
        = db.taskRows.filter (fun r => r ≠ tid)
    ∧ (∀ r ∈ db.messageRows,
        (r ∈ (deleteTask migratedSchema db tid).messageRows ↔ r.2 ≠ tid))
    ∧ (∀ r ∈ db.fileRows,
        (r ∈ (deleteTask migratedSchema db tid).fileRows ↔ r.2 ≠ tid)) := by
  have hm : cascadesFromTasks migratedSchema "messages" = true := by decide
  have hf : cascadesFromTasks migratedSchema "files" = true := by decide
  refine ⟨hm, hf, by simp [deleteTask, hm], by simp [deleteTask, hf], rfl, ?_, ?_⟩
  · intro r hr
    simp [deleteTask, hm, List.mem_filter, hr]
  · intro r hr
    simp [deleteTask, hf, List.mem_filter, hr]

/-- Witness for C9: deleting task `t1` removes its `messages` and `files`
rows and keeps those of `t2`. -/
theorem cascade_delete_semantics_witness :
    (deleteTask migratedSchema ⟨["t1", "t2"], [(1, "t1"), (2, "t2")], [(3, "t1"), (4, "t2")]⟩
        "t1").messageRows = [(2, "t2")]
    ∧ (deleteTask migratedSchema ⟨["t1", "t2"], [(1, "t1"), (2, "t2")], [(3, "t1"), (4, "t2")]⟩
        "t1").fileRows = [(4, "t2")]
    ∧ (2, "t2") ∈ (deleteTask migratedSchema
        ⟨["t1", "t2"], [(1, "t1"), (2, "t2")], [(3, "t1"), (4, "t2")]⟩ "t1").messageRows := by
  have h := cascade_delete_semantics
    ⟨["t1", "t2"], [(1, "t1"), (2, "t2")], [(3, "t1"), (4, "t2")]⟩ "t1"
  exact ⟨h.2.2.1.trans (by decide), h.2.2.2.1.trans (by decide),
    (h.2.2.2.2.2.1 (2, "t2") (by decide)).mpr (by decide)⟩

/-- Claim C10: every `CREATE TABLE` and `CREATE INDEX` statement in the
changeset list is guarded with `IF NOT EXISTS`, so re-executing the
statements of versions 1, 3 or 4 against the fully migrated schema
succeeds and leaves it unchanged, while the unguarded
`ALTER TABLE ... ADD COLUMN` statements of versions 2 and 5 fail with a
duplicate-column error on re-execution: idempotence of those two versions
rests on the ledger check alone. -/
theorem changeset_statement_idempotence :
    migrations.all createsGuarded = true
    ∧ execStmts migratedSchema migration1.sql = .ok migratedSchema
    ∧ execStmts migratedSchema migration3.sql = .ok migratedSchema
    ∧ execStmts migratedSchema migration4.sql = .ok migratedSchema
    ∧ execStmts migratedSchema migration2.sql
        = .error (.duplicateColumn "messages" "tool_output")
    ∧ execStmts migratedSchema migration5.sql
        = .error (.duplicateColumn "tasks" "session_id") :=
  ⟨by decide, rfl, rfl, rfl, rfl, rfl⟩
